import Mathlib

/-!
Verification development for the `python_magnetdb` schema module
(`src/python_magnetdb/models.py`).

The source file is a declarative SQLModel schema: for each entity
(Material, MSite, Magnet, MPart, MRecord) it declares a Base shape, a
persisted table shape, and Create/Read/Update view shapes, plus two
many-to-many junction tables and a few expanded Read shapes.

The embedding has two levels:
* a *shape level*: each class is a list of field descriptors mirroring the
  pydantic field declarations (name, type, default, primary-key and
  foreign-key markers), with pydantic inheritance modelled by
  name-overriding merge of field lists;
* a *value level*: row structures and a database state with
  insert/link/update/expand operations.  The source contains only the
  schema; the persistence/API behaviour those declarations induce is
  modelled from the spec and marked `Modelled from the spec:` on each
  such definition.

Float-typed columns carry no arithmetic anywhere in the source, so they
are embedded with the exact carrier `ℚ` (only the literal `0` default is
ever used).
-/

/-- The type annotation of a pydantic field, as written in the source. -/
inductive FType where
  | str : FType
  | float : FType
  | int : FType
  | opt : FType → FType
  /-- `List[X]` for a named model `X`. -/
  | listOf : String → FType
deriving DecidableEq, Repr

/-- A declared default value of a field (`= 0`, `= None`, `= []`). -/
inductive DVal where
  | none_ : DVal
  | num : Int → DVal
  | emptyList : DVal
deriving DecidableEq, Repr

/-- One pydantic field declaration: its name, annotated type, declared
default (`none` means the field is required), and the `primary_key` /
`foreign_key` markers of a `Field(...)` call when present. -/
structure FieldSpec where
  name : String
  type : FType
  dflt : Option DVal
  primaryKey : Bool
  foreignKey : Option String
deriving DecidableEq, Repr

/-- A required (no-default) plain field. -/
def reqF (n : String) (t : FType) : FieldSpec :=
  ⟨n, t, none, false, none⟩

/-- An optional field with a declared default. -/
def optF (n : String) (t : FType) (d : DVal) : FieldSpec :=
  ⟨n, t, some d, false, none⟩

/-- `id: Optional[int] = Field(default=None, primary_key=True)`. -/
def idOptField : FieldSpec :=
  ⟨"id", FType.opt FType.int, some DVal.none_, true, none⟩

/-- `id: int` (required, as redeclared on the Read shapes). -/
def idReqField : FieldSpec :=
  ⟨"id", FType.int, none, false, none⟩

/-- Pydantic single-inheritance field merge: the child's redeclaration of
a parent field replaces it in place, and genuinely new child fields are
appended after the inherited ones. -/
def overrideFields (parent child : List FieldSpec) : List FieldSpec :=
  parent.map (fun f => ((child.find? (fun c => c.name = f.name)).getD f)) ++
    child.filter (fun c => ¬ parent.any (fun f => f.name = c.name))

/-- Names of a field list, in declaration order. -/
def fieldNames (fs : List FieldSpec) : List String :=
  fs.map FieldSpec.name

/-- Look a field up by name. -/
def findField (fs : List FieldSpec) (n : String) : Option FieldSpec :=
  fs.find? (fun f => f.name = n)

/-! ### Material shapes -/

/-- `MaterialBase` field declarations. -/
def materialBaseFields : List FieldSpec :=
  [reqF "name" FType.str,
   reqF "Tref" FType.float,
   reqF "VolumicMass" FType.float,
   reqF "SpecificHeat" FType.float,
   optF "alpha" (FType.opt FType.float) (DVal.num 0),
   optF "ElectricalConductivity" (FType.opt FType.float) (DVal.num 0),
   reqF "ThermalConductivity" FType.float,
   reqF "MagnetPermeability" FType.float,
   reqF "Young" FType.float,
   reqF "Poisson" FType.float,
   reqF "CoefDilatation" FType.float,
   optF "ref" (FType.opt FType.str) DVal.none_]

/-- `Material` (table): Base plus the optional primary-key id. -/
def materialFields : List FieldSpec :=
  overrideFields materialBaseFields [idOptField]

/-- `MaterialCreate(MaterialBase): pass`. -/
def materialCreateFields : List FieldSpec :=
  overrideFields materialBaseFields []

/-- `MaterialRead(MaterialBase): id: int`. -/
def materialReadFields : List FieldSpec :=
  overrideFields materialBaseFields [idReqField]

/-- `MaterialUpdate`: declared afresh in the source with exactly the
Base field list. -/
def materialUpdateFields : List FieldSpec :=
  [reqF "name" FType.str,
   reqF "Tref" FType.float,
   reqF "VolumicMass" FType.float,
   reqF "SpecificHeat" FType.float,
   optF "alpha" (FType.opt FType.float) (DVal.num 0),
   optF "ElectricalConductivity" (FType.opt FType.float) (DVal.num 0),
   reqF "ThermalConductivity" FType.float,
   reqF "MagnetPermeability" FType.float,
   reqF "Young" FType.float,
   reqF "Poisson" FType.float,
   reqF "CoefDilatation" FType.float,
   optF "ref" (FType.opt FType.str) DVal.none_]

/-! ### Junction tables -/

/-- `MPartMagnetLink`: two optional FK columns, both `primary_key=True`. -/
def mpartMagnetLinkFields : List FieldSpec :=
  [⟨"magnet_id", FType.opt FType.int, some DVal.none_, true, some "magnet.id"⟩,
   ⟨"mpart_id", FType.opt FType.int, some DVal.none_, true, some "mpart.id"⟩]

/-- `MagnetMSiteLink`: two optional FK columns, both `primary_key=True`. -/
def magnetMSiteLinkFields : List FieldSpec :=
  [⟨"magnet_id", FType.opt FType.int, some DVal.none_, true, some "magnet.id"⟩,
   ⟨"msite_id", FType.opt FType.int, some DVal.none_, true, some "msite.id"⟩]

/-! ### MSite shapes -/

/-- `MSiteBase` field declarations. -/
def msiteBaseFields : List FieldSpec :=
  [reqF "name" FType.str,
   reqF "conffile" FType.str,
   reqF "status" FType.str]

/-- `MSite` (table) column fields; the `magnets` `Relationship` attribute
is not a column and is recorded in `msiteRelationships`. -/
def msiteFields : List FieldSpec :=
  overrideFields msiteBaseFields [idOptField]

/-- `MSiteRead(MSiteBase): id: int`. -/
def msiteReadFields : List FieldSpec :=
  overrideFields msiteBaseFields [idReqField]

/-- `MSiteCreate(MSiteBase): pass`. -/
def msiteCreateFields : List FieldSpec :=
  overrideFields msiteBaseFields []

/-- `MSiteUpdate`: scalars plus `magnets: List["Magnet"] = []`. -/
def msiteUpdateFields : List FieldSpec :=
  [reqF "name" FType.str,
   reqF "conffile" FType.str,
   reqF "status" FType.str,
   optF "magnets" (FType.listOf "Magnet") DVal.emptyList]

/-! ### Magnet shapes -/

/-- `MagnetBase` field declarations. -/
def magnetBaseFields : List FieldSpec :=
  [reqF "name" FType.str,
   reqF "be" FType.str,
   reqF "geom" FType.str,
   reqF "status" FType.str]

/-- `Magnet` (table) column fields; `msites`/`mparts` are `Relationship`
attributes, recorded in `magnetRelationships`. -/
def magnetFields : List FieldSpec :=
  overrideFields magnetBaseFields [idOptField]

/-- `MagnetRead(MagnetBase): id: int`. -/
def magnetReadFields : List FieldSpec :=
  overrideFields magnetBaseFields [idReqField]

/-- `MagnetCreate(MagnetBase): pass`. -/
def magnetCreateFields : List FieldSpec :=
  overrideFields magnetBaseFields []

/-- `MagnetUpdate`: scalars plus `msites: List[MSite] = []` and
`mparts: List["MPart"] = []`. -/
def magnetUpdateFields : List FieldSpec :=
  [reqF "name" FType.str,
   reqF "be" FType.str,
   reqF "geom" FType.str,
   reqF "status" FType.str,
   optF "msites" (FType.listOf "MSite") DVal.emptyList,
   optF "mparts" (FType.listOf "MPart") DVal.emptyList]

/-! ### MPart shapes -/

/-- `MPartBase`: scalars plus
`material_id: Optional[int] = Field(default=None, foreign_key="material.id")`. -/
def mpartBaseFields : List FieldSpec :=
  [reqF "name" FType.str,
   reqF "type" FType.str,
   reqF "be" FType.str,
   reqF "geom" FType.str,
   reqF "status" FType.str,
   ⟨"material_id", FType.opt FType.int, some DVal.none_, false, some "material.id"⟩]

/-- `MPart` (table) column fields; the `magnets` `Relationship` attribute
is recorded in `mpartRelationships`; the `material` relationship is
commented out in the source and hence absent. -/
def mpartFields : List FieldSpec :=
  overrideFields mpartBaseFields [idOptField]

/-- `MPartRead(MPartBase): id: int`. -/
def mpartReadFields : List FieldSpec :=
  overrideFields mpartBaseFields [idReqField]

/-- `MPartCreate(MPartBase): pass`. -/
def mpartCreateFields : List FieldSpec :=
  overrideFields mpartBaseFields []

/-- `MPartUpdate`: scalars, `material_id: Optional[int] = None` (a plain
default, no `Field(...)` call, so no FK marker), and
`magnets: List[Magnet] = []`. -/
def mpartUpdateFields : List FieldSpec :=
  [reqF "name" FType.str,
   reqF "type" FType.str,
   reqF "be" FType.str,
   reqF "geom" FType.str,
   reqF "status" FType.str,
   optF "material_id" (FType.opt FType.int) DVal.none_,
   optF "magnets" (FType.listOf "Magnet") DVal.emptyList]

/-! ### Expanded Read shapes -/

/-- `MPartReadWithMagnet(MPartRead): magnets: List[MagnetRead] = []`. -/
def mpartReadWithMagnetFields : List FieldSpec :=
  overrideFields mpartReadFields
    [optF "magnets" (FType.listOf "MagnetRead") DVal.emptyList]

/-- `MagnetReadWithMParts(MagnetRead): mparts: List[MPartRead] = []`. -/
def magnetReadWithMPartsFields : List FieldSpec :=
  overrideFields magnetReadFields
    [optF "mparts" (FType.listOf "MPartRead") DVal.emptyList]

/-- `MagnetReadWithMSite(MagnetRead): msites: List[MSiteRead] = []`. -/
def magnetReadWithMSiteFields : List FieldSpec :=
  overrideFields magnetReadFields
    [optF "msites" (FType.listOf "MSiteRead") DVal.emptyList]

/-- `MSiteReadWithMagnets(MSiteRead): magnets: List[MagnetRead] = []`. -/
def msiteReadWithMagnetsFields : List FieldSpec :=
  overrideFields msiteReadFields
    [optF "magnets" (FType.listOf "MagnetRead") DVal.emptyList]

/-! ### MRecord shapes -/

/-- `MRecordBase`: note that, unlike every other Base shape, it declares
the surrogate-key `id` column itself. -/
def mrecordBaseFields : List FieldSpec :=
  [idOptField,
   reqF "timestamp" FType.str,
   reqF "name" FType.str,
   ⟨"msite_id", FType.opt FType.int, some DVal.none_, false, some "msite.id"⟩]

/-- `MRecord` (table): redeclares the same optional primary-key id. -/
def mrecordFields : List FieldSpec :=
  overrideFields mrecordBaseFields [idOptField]

/-- `MRecordRead(MRecordBase): id: int`. -/
def mrecordReadFields : List FieldSpec :=
  overrideFields mrecordBaseFields [idReqField]

/-- `MRecordCreate(MRecordBase): pass`. -/
def mrecordCreateFields : List FieldSpec :=
  overrideFields mrecordBaseFields []

/-- `MRecordUpdate`: `timestamp`, `name`, `msite_id: Optional[int] = None`. -/
def mrecordUpdateFields : List FieldSpec :=
  [reqF "timestamp" FType.str,
   reqF "name" FType.str,
   optF "msite_id" (FType.opt FType.int) DVal.none_]

/-! ### Entities and per-entity shape selectors -/

/-- The five entities of the schema. -/
inductive Entity where
  | Material | MSite | Magnet | MPart | MRecord
deriving DecidableEq, Repr

/-- The Base shape of an entity. -/
def baseFields : Entity → List FieldSpec
  | Entity.Material => materialBaseFields
  | Entity.MSite => msiteBaseFields
  | Entity.Magnet => magnetBaseFields
  | Entity.MPart => mpartBaseFields
  | Entity.MRecord => mrecordBaseFields

/-- The Create view shape of an entity. -/
def createFields : Entity → List FieldSpec
  | Entity.Material => materialCreateFields
  | Entity.MSite => msiteCreateFields
  | Entity.Magnet => magnetCreateFields
  | Entity.MPart => mpartCreateFields
  | Entity.MRecord => mrecordCreateFields

/-- The Read view shape of an entity. -/
def readFields : Entity → List FieldSpec
  | Entity.Material => materialReadFields
  | Entity.MSite => msiteReadFields
  | Entity.Magnet => magnetReadFields
  | Entity.MPart => mpartReadFields
  | Entity.MRecord => mrecordReadFields

/-- The persisted (table) column shape of an entity. -/
def persistedFields : Entity → List FieldSpec
  | Entity.Material => materialFields
  | Entity.MSite => msiteFields
  | Entity.Magnet => magnetFields
  | Entity.MPart => mpartFields
  | Entity.MRecord => mrecordFields

/-- The Update view shape of an entity. -/
def updateFields : Entity → List FieldSpec
  | Entity.Material => materialUpdateFields
  | Entity.MSite => msiteUpdateFields
  | Entity.Magnet => magnetUpdateFields
  | Entity.MPart => mpartUpdateFields
  | Entity.MRecord => mrecordUpdateFields

/-- A `Relationship(...)` attribute on a table class: attribute name,
target model, link model. -/
structure RelSpec where
  name : String
  target : String
  linkModel : String
deriving DecidableEq, Repr

/-- The `Relationship` attributes declared on an entity's table class.
`Material` and `MRecord` declare none (the `material` / `msite`
relationships are commented out in the source). -/
def tableRelationships : Entity → List RelSpec
  | Entity.Material => []
  | Entity.MSite => [⟨"magnets", "Magnet", "MagnetMSiteLink"⟩]
  | Entity.Magnet =>
      [⟨"msites", "MSite", "MagnetMSiteLink"⟩,
       ⟨"mparts", "MPart", "MPartMagnetLink"⟩]
  | Entity.MPart => [⟨"magnets", "Magnet", "MPartMagnetLink"⟩]
  | Entity.MRecord => []

example : fieldNames materialCreateFields = fieldNames materialBaseFields := by decide
example : "id" ∈ fieldNames mrecordCreateFields := by decide
example : "id" ∉ fieldNames mpartCreateFields := by decide
example : fieldNames mrecordReadFields = ["id", "timestamp", "name", "msite_id"] := by decide

/-! ### Value level: rows and database state

The source declares only the schema; rows and the persistence operations
below realize the behaviour the declarations induce, as described by the
spec (each such definition is marked `Modelled from the spec:`). -/

/-- A persisted `Material` row (columns of `MaterialBase`; the key is
carried alongside in the database state). -/
structure MaterialRow where
  name : String
  Tref : ℚ
  VolumicMass : ℚ
  SpecificHeat : ℚ
  alpha : Option ℚ
  ElectricalConductivity : Option ℚ
  ThermalConductivity : ℚ
  MagnetPermeability : ℚ
  Young : ℚ
  Poisson : ℚ
  CoefDilatation : ℚ
  ref : Option String
deriving DecidableEq, Repr

/-- A `MaterialCreate` payload.  For a field declared with a default, the
outer `Option` distinguishes an omitted field (`none`) from a supplied
one; for the `Optional[...]`-typed fields the inner `Option` is the
nullable value itself. -/
structure MaterialCreatePayload where
  name : String
  Tref : ℚ
  VolumicMass : ℚ
  SpecificHeat : ℚ
  alpha : Option (Option ℚ)
  ElectricalConductivity : Option (Option ℚ)
  ThermalConductivity : ℚ
  MagnetPermeability : ℚ
  Young : ℚ
  Poisson : ℚ
  CoefDilatation : ℚ
  ref : Option (Option String)
deriving DecidableEq, Repr

/-- Validation of a `MaterialCreate` payload: each omitted field takes
its declared default (`alpha = 0`, `ElectricalConductivity = 0`,
`ref = None`), exactly as the pydantic defaults in `MaterialBase`
prescribe. -/
def materialOfCreate (p : MaterialCreatePayload) : MaterialRow :=
  { name := p.name
    Tref := p.Tref
    VolumicMass := p.VolumicMass
    SpecificHeat := p.SpecificHeat
    alpha := p.alpha.getD (some 0)
    ElectricalConductivity := p.ElectricalConductivity.getD (some 0)
    ThermalConductivity := p.ThermalConductivity
    MagnetPermeability := p.MagnetPermeability
    Young := p.Young
    Poisson := p.Poisson
    CoefDilatation := p.CoefDilatation
    ref := p.ref.getD none }

/-- A persisted `MSite` row (columns of `MSiteBase`). -/
structure MSiteRow where
  name : String
  conffile : String
  status : String
deriving DecidableEq, Repr

/-- A persisted `Magnet` row (columns of `MagnetBase`). -/
structure MagnetRow where
  name : String
  be : String
  geom : String
  status : String
deriving DecidableEq, Repr

/-- A persisted `MPart` row (columns of `MPartBase`, including the raw
`material_id` foreign-key column). -/
structure MPartRow where
  name : String
  type : String
  be : String
  geom : String
  status : String
  material_id : Option Nat
deriving DecidableEq, Repr

/-- An `MPartRead` value: the row's columns plus the assigned key. -/
structure MPartReadV where
  id : Nat
  name : String
  type : String
  be : String
  geom : String
  status : String
  material_id : Option Nat
deriving DecidableEq, Repr

/-- A `MagnetReadWithMParts` value: `MagnetRead` columns plus the
embedded list of `MPartRead` values. -/
structure MagnetWithMPartsView where
  id : Nat
  name : String
  be : String
  geom : String
  status : String
  mparts : List MPartReadV
deriving DecidableEq, Repr

/-- The database state: one keyed row list per table and the two
junction tables, each a list of `(magnet_id, child_id)` pairs. -/
structure DB where
  materials : List (Nat × MaterialRow)
  msites : List (Nat × MSiteRow)
  magnets : List (Nat × MagnetRow)
  mparts : List (Nat × MPartRow)
  mpartMagnetLinks : List (Nat × Nat)
  magnetMSiteLinks : List (Nat × Nat)
deriving DecidableEq, Repr

/-- The empty database. -/
def DB.empty : DB := ⟨[], [], [], [], [], []⟩

/-- Keys of the `material` table. -/
def materialIds (db : DB) : List Nat := db.materials.map Prod.fst

/-- Keys of the `msite` table. -/
def msiteIds (db : DB) : List Nat := db.msites.map Prod.fst

/-- Keys of the `magnet` table. -/
def magnetIds (db : DB) : List Nat := db.magnets.map Prod.fst

/-- Keys of the `mpart` table. -/
def mpartIds (db : DB) : List Nat := db.mparts.map Prod.fst

/-- A fresh surrogate key, strictly larger than every key in use. -/
def freshId (l : List Nat) : Nat := l.foldr max 0 + 1

/-- Modelled from the spec: persisting a Create payload assigns a new
unique key (`MSite` insert; the source has no persistence code). -/
def createMSite (db : DB) (c : MSiteRow) : Nat × DB :=
  let i := freshId (msiteIds db)
  (i, { db with msites := db.msites ++ [(i, c)] })

/-- Modelled from the spec: persisting a Create payload assigns a new
unique key (`Magnet` insert; the source has no persistence code). -/
def createMagnet (db : DB) (c : MagnetRow) : Nat × DB :=
  let i := freshId (magnetIds db)
  (i, { db with magnets := db.magnets ++ [(i, c)] })

/-- Modelled from the spec: inserting a `MagnetMSiteLink` row.  The
composite primary key declared in the source makes a duplicate
`(magnet_id, msite_id)` pair a uniqueness violation (`none`); the two
foreign keys must reference existing rows. -/
def linkMagnetMSite (db : DB) (m s : Nat) : Option DB :=
  if (m, s) ∈ db.magnetMSiteLinks then none
  else if m ∈ magnetIds db ∧ s ∈ msiteIds db then
    some { db with magnetMSiteLinks := db.magnetMSiteLinks ++ [(m, s)] }
  else none

/-- Modelled from the spec: inserting a `MPartMagnetLink` row.  The
composite primary key declared in the source makes a duplicate
`(magnet_id, mpart_id)` pair a uniqueness violation (`none`); the two
foreign keys must reference existing rows. -/
def insertMPartMagnetLink (db : DB) (m p : Nat) : Option DB :=
  if (m, p) ∈ db.mpartMagnetLinks then none
  else if m ∈ magnetIds db ∧ p ∈ mpartIds db then
    some { db with mpartMagnetLinks := db.mpartMagnetLinks ++ [(m, p)] }
  else none

/-- Modelled from the spec: inserting an `MPart` row.  The
`foreign_key="material.id"` declaration on `material_id` makes a
reference to a non-existent Material a referential-integrity violation
(`none`); a null `material_id` is accepted since the column is
`Optional`. -/
def insertMPart (db : DB) (row : MPartRow) : Option (Nat × DB) :=
  match row.material_id with
  | none =>
      let i := freshId (mpartIds db)
      some (i, { db with mparts := db.mparts ++ [(i, row)] })
  | some mid =>
      if mid ∈ materialIds db then
        let i := freshId (mpartIds db)
        some (i, { db with mparts := db.mparts ++ [(i, row)] })
      else none

/-- Junction rows of the Magnet↔MSite table whose magnet side is `mid`. -/
def magnetMSiteLinksOf (db : DB) (mid : Nat) : List (Nat × Nat) :=
  db.magnetMSiteLinks.filter (fun l => decide (l.1 = mid))

/-- Junction rows of the Magnet↔MPart table whose magnet side is `mid`. -/
def magnetMPartLinksOf (db : DB) (mid : Nat) : List (Nat × Nat) :=
  db.mpartMagnetLinks.filter (fun l => decide (l.1 = mid))

/-- A validated `MagnetUpdate` payload.  The source declares the
relationship fields as lists of related `MSite` / `MPart` objects; only
their keys determine the junction rows, so the embedding carries the
keys. -/
structure MagnetUpdatePayload where
  name : String
  be : String
  geom : String
  status : String
  msites : List Nat
  mparts : List Nat
deriving DecidableEq, Repr

/-- A raw `MagnetUpdate` request body: the relationship fields carry the
`= []` defaults declared in the source, so they may be omitted (`none`). -/
structure MagnetUpdateInput where
  name : String
  be : String
  geom : String
  status : String
  msites : Option (List Nat)
  mparts : Option (List Nat)
deriving DecidableEq, Repr

/-- Validation of a `MagnetUpdate` body: an omitted relationship field
takes its declared `[]` default. -/
def magnetUpdateOfInput (i : MagnetUpdateInput) : MagnetUpdatePayload :=
  ⟨i.name, i.be, i.geom, i.status, i.msites.getD [], i.mparts.getD []⟩

/-- Modelled from the spec: applying a `MagnetUpdate` replaces every
mutable field in full — scalars overwrite the row, and the two
relationship lists replace the magnet's junction rows outright
(full-replace semantics, no partial patch). -/
def updateMagnet (db : DB) (mid : Nat) (u : MagnetUpdatePayload) : Option DB :=
  if mid ∈ magnetIds db then
    some { db with
      magnets := db.magnets.map
        (fun r => if r.1 = mid then (mid, ⟨u.name, u.be, u.geom, u.status⟩) else r)
      magnetMSiteLinks :=
        db.magnetMSiteLinks.filter (fun l => decide (¬ l.1 = mid)) ++
          u.msites.map (fun s => (mid, s))
      mpartMagnetLinks :=
        db.mpartMagnetLinks.filter (fun l => decide (¬ l.1 = mid)) ++
          u.mparts.map (fun p => (mid, p)) }
  else none

/-- A validated `MPartUpdate` payload: scalars, the optional
`material_id` (declared `Optional[int] = None`, so an omitted field is
`none`), and the keys of the related magnets. -/
structure MPartUpdatePayload where
  name : String
  type : String
  be : String
  geom : String
  status : String
  material_id : Option Nat
  magnets : List Nat
deriving DecidableEq, Repr

/-- Modelled from the spec: applying an `MPartUpdate` replaces every
mutable field in full, including the scalar foreign key `material_id`
and the part's junction rows; a non-null `material_id` must reference an
existing Material. -/
def updateMPart (db : DB) (pid : Nat) (u : MPartUpdatePayload) : Option DB :=
  if pid ∈ mpartIds db then
    match u.material_id with
    | some mid =>
        if mid ∈ materialIds db then
          some { db with
            mparts := db.mparts.map
              (fun r => if r.1 = pid then
                (pid, ⟨u.name, u.type, u.be, u.geom, u.status, u.material_id⟩)
               else r)
            mpartMagnetLinks :=
              db.mpartMagnetLinks.filter (fun l => decide (¬ l.2 = pid)) ++
                u.magnets.map (fun m => (m, pid)) }
        else none
    | none =>
        some { db with
          mparts := db.mparts.map
            (fun r => if r.1 = pid then
              (pid, ⟨u.name, u.type, u.be, u.geom, u.status, u.material_id⟩)
             else r)
          mpartMagnetLinks :=
            db.mpartMagnetLinks.filter (fun l => decide (¬ l.2 = pid)) ++
              u.magnets.map (fun m => (m, pid)) }
  else none

/-- The stored `material_id` of part `pid`, when the part exists. -/
def mpartMaterialOf (db : DB) (pid : Nat) : Option (Option Nat) :=
  (db.mparts.find? (fun r => decide (r.1 = pid))).map (fun r => r.2.material_id)

/-- The `MPartRead` value of a keyed `MPart` row. -/
def mpartReadOf (pid : Nat) (r : MPartRow) : MPartReadV :=
  ⟨pid, r.name, r.type, r.be, r.geom, r.status, r.material_id⟩

/-- The `MPartRead` values of exactly the parts currently linked to
magnet `mid` through the Magnet↔MPart junction table. -/
def linkedMPartReads (db : DB) (mid : Nat) : List MPartReadV :=
  (db.mparts.filter (fun r => decide ((mid, r.1) ∈ db.mpartMagnetLinks))).map
    (fun r => mpartReadOf r.1 r.2)

/-- Modelled from the spec: serving a `MagnetReadWithMParts` response
embeds the `MPartRead` of every currently linked part inline. -/
def expandMagnetWithMParts (db : DB) (mid : Nat) : Option MagnetWithMPartsView :=
  (db.magnets.find? (fun r => decide (r.1 = mid))).map
    (fun r => ⟨mid, r.2.name, r.2.be, r.2.geom, r.2.status, linkedMPartReads db mid⟩)

example : (insertMPart DB.empty ⟨"p", "helix", "b", "g", "ok", some 5⟩) = none := by decide
example : (insertMPart DB.empty ⟨"p", "helix", "b", "g", "ok", none⟩).isSome := by decide

/-! ### Concrete scenarios used by witnesses and round-trip checks -/

/-- A concrete `MaterialCreate` payload that omits `alpha`,
`ElectricalConductivity` and `ref`. -/
def pC5 : MaterialCreatePayload :=
  ⟨"steel", 293, 7800, 500, none, none, 50, 1, 200, 0, 0, none⟩

/-- Round trip, step 1: persist MSite "S1" into the empty database. -/
def rtDb1 : DB := (createMSite DB.empty ⟨"S1", "conf", "in_study"⟩).2

/-- Round trip, step 2: persist Magnet "A". -/
def rtDb2 : DB := (createMagnet rtDb1 ⟨"A", "be", "geom", "in_study"⟩).2

/-- Round trip, step 3: link Magnet 1 (A) to MSite 1 (S1). -/
def rtDb3 : DB := (linkMagnetMSite rtDb2 1 1).getD DB.empty

/-- Round trip, step 4: an update body for A that omits both
relationship fields. -/
def rtInput : MagnetUpdateInput := ⟨"A", "be", "geom", "in_study", none, none⟩

/-- Round trip, step 5: apply the update to Magnet 1. -/
def rtDb4 : DB := (updateMagnet rtDb3 1 (magnetUpdateOfInput rtInput)).getD DB.empty

/-- A database with one magnet and two parts, of which only part 1 is
linked to the magnet. -/
def c7db : DB :=
  ⟨[], [],
   [(1, ⟨"A", "be", "geom", "ok"⟩)],
   [(1, ⟨"P1", "helix", "b", "g", "ok", none⟩),
    (2, ⟨"P2", "bitter", "b", "g", "ok", none⟩)],
   [(1, 1)], []⟩

/-- The expansion of magnet 1 in `c7db`. -/
def c7view : MagnetWithMPartsView :=
  (expandMagnetWithMParts c7db 1).getD ⟨0, "", "", "", "", []⟩

/-- The `MPartRead` of the linked part of `c7db`. -/
def c7pr : MPartReadV := mpartReadOf 1 ⟨"P1", "helix", "b", "g", "ok", none⟩

/-- A database with one Material (key 7) and one part whose
`material_id` references it. -/
def c9db : DB :=
  ⟨[(7, ⟨"steel", 293, 7800, 500, none, none, 50, 1, 200, 0, 0, none⟩)],
   [], [],
   [(1, ⟨"P", "helix", "b", "g", "ok", some 7⟩)],
   [], []⟩

/-- An `MPartUpdate` payload for part 1 that omits `material_id`. -/
def c9u : MPartUpdatePayload := ⟨"P", "helix", "b", "g", "ok", none, []⟩

/-- The state after applying `c9u` to part 1 of `c9db`. -/
def c9db2 : DB := (updateMPart c9db 1 c9u).getD DB.empty

/-! ### Helper lemmas -/

/-- Filtering for first component `= mid` after filtering it away yields
nothing. -/
theorem filterNe_then_filterEq (mid : Nat) (l : List (Nat × Nat)) :
    (l.filter (fun x => decide (¬ x.1 = mid))).filter
      (fun x => decide (x.1 = mid)) = [] := by
  induction l with
  | nil => rfl
  | cons a t ih =>
    by_cases h : a.1 = mid <;> simp [List.filter_cons, h, ih]

/-- Every pair built with first component `mid` survives the
first-component filter. -/
theorem filterEq_of_map_mk (mid : Nat) (l : List Nat) :
    ((l.map (fun s => (mid, s))).filter (fun x => decide (x.1 = mid))) =
      l.map (fun s => (mid, s)) := by
  induction l with
  | nil => rfl
  | cons a t ih => simp [List.filter_cons, ih]

/-- `find?` by key through an in-place single-key replacement. -/
theorem find_replace (pid : Nat) (newRow : MPartRow) (l : List (Nat × MPartRow)) :
    ((l.map (fun r => if r.1 = pid then (pid, newRow) else r)).find?
        (fun r => decide (r.1 = pid))) =
      (l.find? (fun r => decide (r.1 = pid))).map (fun _ => (pid, newRow)) := by
  induction l with
  | nil => rfl
  | cons a t ih =>
    by_cases h : a.1 = pid <;> simp [List.find?_cons, h, ih]

/-- A key occurring among the first components is found by `find?`. -/
theorem find_fst_mem {α : Type} (pid : Nat) (l : List (Nat × α))
    (h : pid ∈ l.map Prod.fst) :
    ∃ r, l.find? (fun r => decide (r.1 = pid)) = some r := by
  induction l with
  | nil => simp at h
  | cons a t ih =>
    by_cases ha : a.1 = pid
    · exact ⟨a, by simp [List.find?_cons, ha]⟩
    · have : pid ∈ t.map Prod.fst := by
        rcases List.mem_map.mp h with ⟨x, hx, hxe⟩
        cases hx with
        | head => exact absurd hxe ha
        | tail _ hx => exact List.mem_map.mpr ⟨x, hx, hxe⟩
      rcases ih this with ⟨r, hr⟩
      exact ⟨r, by simp [List.find?_cons, ha, hr]⟩

/-! ### Claim theorems -/

/-- C1, counterexample: the claim that no Create shape exposes an `id`
field is false — `MRecordCreate` inherits the optional primary-key `id`
column that `MRecordBase` itself declares. -/
theorem C1_counterexample : "id" ∈ fieldNames (createFields Entity.MRecord) := by
  decide

/-- C1, amended: every entity's Create shape has exactly the fields of
its Base shape; for Material, MSite, Magnet and MPart that shape has no
`id` field, but `MRecordCreate` does expose the (optional) surrogate-key
`id` field, because `MRecordBase` declares it. -/
theorem C1_create_shapes :
    (∀ e, fieldNames (createFields e) = fieldNames (baseFields e)) ∧
    (∀ e, ¬ e = Entity.MRecord → "id" ∉ fieldNames (createFields e)) ∧
    "id" ∈ fieldNames (createFields Entity.MRecord) := by
  refine ⟨?_, ?_, by decide⟩
  · intro e; cases e <;> decide
  · intro e h
    cases e
    · decide
    · decide
    · decide
    · decide
    · exact absurd rfl h

/-- C1, witness: the amended theorem instantiated at Material. -/
theorem C1_create_shapes_witness :
    "id" ∉ fieldNames (createFields Entity.Material) :=
  C1_create_shapes.2.1 Entity.Material (by decide)

/-- C3: the two junction tables consist of exactly two columns, each a
foreign key and part of the composite primary key, and inserting the
same pair twice into either link always fails (the second insert of a
`(magnet_id, mpart_id)` pair returns `none`). -/
theorem C3_link_tables :
    fieldNames mpartMagnetLinkFields = ["magnet_id", "mpart_id"] ∧
    fieldNames magnetMSiteLinkFields = ["magnet_id", "msite_id"] ∧
    (mpartMagnetLinkFields.all
      (fun f => f.primaryKey && f.foreignKey.isSome)) = true ∧
    (magnetMSiteLinkFields.all
      (fun f => f.primaryKey && f.foreignKey.isSome)) = true ∧
    (∀ db m p, ((insertMPartMagnetLink db m p).bind
      (fun db2 => insertMPartMagnetLink db2 m p)) = none) ∧
    (∀ db m s, ((linkMagnetMSite db m s).bind
      (fun db2 => linkMagnetMSite db2 m s)) = none) := by
  refine ⟨by decide, by decide, by decide, by decide, ?_, ?_⟩
  · intro db m p
    by_cases h1 : (m, p) ∈ db.mpartMagnetLinks
    · simp [insertMPartMagnetLink, h1]
    · by_cases h2 : m ∈ magnetIds db ∧ p ∈ mpartIds db
      · simp [insertMPartMagnetLink, h1, h2, List.mem_append]
      · simp [insertMPartMagnetLink, h1, h2]
  · intro db m s
    by_cases h1 : (m, s) ∈ db.magnetMSiteLinks
    · simp [linkMagnetMSite, h1]
    · by_cases h2 : m ∈ magnetIds db ∧ s ∈ msiteIds db
      · simp [linkMagnetMSite, h1, h2, List.mem_append]
      · simp [linkMagnetMSite, h1, h2]

/-- C4: `material_id` on `MPartBase` is an optional column declared as a
foreign key to `material.id`; inserting an `MPart` succeeds exactly when
`material_id` is null or references an existing Material key, so a
dangling reference is a referential-integrity failure and a null one is
accepted. -/
theorem C4_mpart_material_fk :
    findField mpartBaseFields "material_id" =
      some ⟨"material_id", FType.opt FType.int, some DVal.none_, false,
        some "material.id"⟩ ∧
    ∀ db row, (insertMPart db row).isSome =
      (match row.material_id with
       | none => true
       | some mid => decide (mid ∈ materialIds db)) := by
  refine ⟨by decide, ?_⟩
  intro db row
  cases hm : row.material_id with
  | none => simp [insertMPart, hm]
  | some mid =>
    by_cases h : mid ∈ materialIds db <;> simp [insertMPart, hm, h]

/-- C5: `alpha` and `ElectricalConductivity` are declared with default
`0` and `ref` with default `None` on `MaterialBase`, and a Create
payload omitting them is stored with `alpha = 0`,
`ElectricalConductivity = 0` and `ref = None`. -/
theorem C5_material_defaults :
    findField materialBaseFields "alpha" =
      some (optF "alpha" (FType.opt FType.float) (DVal.num 0)) ∧
    findField materialBaseFields "ElectricalConductivity" =
      some (optF "ElectricalConductivity" (FType.opt FType.float) (DVal.num 0)) ∧
    findField materialBaseFields "ref" =
      some (optF "ref" (FType.opt FType.str) DVal.none_) ∧
    ∀ p : MaterialCreatePayload, p.alpha = none →
      p.ElectricalConductivity = none → p.ref = none →
      (materialOfCreate p).alpha = some 0 ∧
      (materialOfCreate p).ElectricalConductivity = some 0 ∧
      (materialOfCreate p).ref = none := by
  refine ⟨by decide, by decide, by decide, ?_⟩
  intro p h1 h2 h3
  simp [materialOfCreate, h1, h2, h3]

/-- C5, witness: the concrete payload `pC5` omits all three fields and is
stored with the declared defaults. -/
theorem C5_material_defaults_witness :
    (materialOfCreate pC5).alpha = some 0 ∧
    (materialOfCreate pC5).ElectricalConductivity = some 0 ∧
    (materialOfCreate pC5).ref = none :=
  C5_material_defaults.2.2.2 pC5 rfl rfl rfl

/-- C6: for every entity the Read shape's field set equals the persisted
table's column set, its `id` is the required (no-default, non-optional)
integer field, and the field set is the Base field set plus `id`. -/
theorem C6_read_shapes :
    ∀ e, fieldNames (readFields e) = fieldNames (persistedFields e) ∧
      findField (readFields e) "id" = some idReqField ∧
      (fieldNames (readFields e)).toFinset =
        insert "id" (fieldNames (baseFields e)).toFinset := by
  intro e; cases e <;> refine ⟨by decide, by decide, by decide⟩

/-- C8: the persisted `MPart` and `MRecord` shapes carry the raw
foreign-key columns `material_id` / `msite_id` but no navigable
`material` / `msite` attribute, neither as a column nor as a declared
`Relationship`. -/
theorem C8_raw_fk_columns :
    findField mpartFields "material_id" =
      some ⟨"material_id", FType.opt FType.int, some DVal.none_, false,
        some "material.id"⟩ ∧
    "material" ∉ fieldNames mpartFields ∧
    "material" ∉ (tableRelationships Entity.MPart).map RelSpec.name ∧
    findField mrecordFields "msite_id" =
      some ⟨"msite_id", FType.opt FType.int, some DVal.none_, false,
        some "msite.id"⟩ ∧
    "msite" ∉ fieldNames mrecordFields ∧
    tableRelationships Entity.MRecord = [] := by
  refine ⟨by decide, by decide, by decide, by decide, by decide, by decide⟩

/-- C10: `MPartReadWithMagnet` extends `MPartRead` with exactly one new
field, `magnets`, typed `List[MagnetRead]` with default `[]`, leaving
every inherited field unchanged. -/
theorem C10_mpart_read_with_magnet :
    fieldNames mpartReadWithMagnetFields = fieldNames mpartReadFields ++ ["magnets"] ∧
    findField mpartReadWithMagnetFields "magnets" =
      some (optF "magnets" (FType.listOf "MagnetRead") DVal.emptyList) ∧
    (fieldNames mpartReadFields).map (findField mpartReadWithMagnetFields) =
      (fieldNames mpartReadFields).map (findField mpartReadFields) := by
  refine ⟨by decide, by decide, by decide⟩

/-- C2: every entity's Update shape lists the full mutable field set
(the Base fields minus the key, followed by the table's declared
relationship names); the relationship list fields carry the `[]`
default, so omitting them yields the empty collection; and applying an
update full-replaces the magnet's junction rows, so empty collections
clear all links — verified both in general and on the round trip that
creates Magnet A, links it to MSite S1, and updates A with no sites. -/
theorem C2_update_full_replace :
    (∀ e, fieldNames (updateFields e) =
        (fieldNames (baseFields e)).filter (fun n => decide (¬ n = "id")) ++
          (tableRelationships e).map RelSpec.name) ∧
    findField magnetUpdateFields "msites" =
      some (optF "msites" (FType.listOf "MSite") DVal.emptyList) ∧
    findField magnetUpdateFields "mparts" =
      some (optF "mparts" (FType.listOf "MPart") DVal.emptyList) ∧
    (∀ i : MagnetUpdateInput, i.msites = none → i.mparts = none →
      (magnetUpdateOfInput i).msites = [] ∧ (magnetUpdateOfInput i).mparts = []) ∧
    (∀ db mid u db2, updateMagnet db mid u = some db2 →
      magnetMSiteLinksOf db2 mid = u.msites.map (fun s => (mid, s)) ∧
      magnetMPartLinksOf db2 mid = u.mparts.map (fun p => (mid, p))) ∧
    linkMagnetMSite rtDb2 1 1 = some rtDb3 ∧
    magnetMSiteLinksOf rtDb3 1 = [(1, 1)] ∧
    updateMagnet rtDb3 1 (magnetUpdateOfInput rtInput) = some rtDb4 ∧
    magnetMSiteLinksOf rtDb4 1 = [] := by
  refine ⟨?_, by decide, by decide, ?_, ?_, by decide, by decide, by decide, by decide⟩
  · intro e; cases e <;> decide
  · intro i h1 h2
    simp [magnetUpdateOfInput, h1, h2]
  · intro db mid u db2 h
    rw [updateMagnet] at h
    by_cases hm : mid ∈ magnetIds db
    · rw [if_pos hm] at h
      replace h := Option.some.inj h
      subst h
      constructor
      · show (_ ++ _ : List (Nat × Nat)).filter _ = _
        rw [List.filter_append, filterNe_then_filterEq, filterEq_of_map_mk]
        rfl
      · show (_ ++ _ : List (Nat × Nat)).filter _ = _
        rw [List.filter_append, filterNe_then_filterEq, filterEq_of_map_mk]
        rfl
    · rw [if_neg hm] at h
      exact Option.noConfusion h

/-- C2, witness: on the concrete round trip, the update body omitting
both relationship fields validates to empty collections, and the updated
magnet's site links equal the (empty) supplied collection. -/
theorem C2_update_full_replace_witness :
    ((magnetUpdateOfInput rtInput).msites = [] ∧
      (magnetUpdateOfInput rtInput).mparts = []) ∧
    magnetMSiteLinksOf rtDb4 1 =
      (magnetUpdateOfInput rtInput).msites.map (fun s => (1, s)) := by
  obtain ⟨-, -, -, h4, h5, -⟩ := C2_update_full_replace
  exact ⟨h4 rtInput rfl rfl,
    (h5 rtDb3 1 (magnetUpdateOfInput rtInput) rtDb4 (by decide)).1⟩

/-- C7: the three expanded Read shapes extend the plain Read shapes with
a single related-entity list field (`mparts : List[MPartRead]`,
`msites : List[MSiteRead]`, `magnets : List[MagnetRead]`) defaulting to
`[]`; and the `MagnetReadWithMParts` expansion of a magnet contains
exactly the `MPartRead` values of the parts currently linked to it
through the junction table (stated as set membership, no order). -/
theorem C7_expanded_read_shapes :
    fieldNames magnetReadWithMPartsFields =
      fieldNames magnetReadFields ++ ["mparts"] ∧
    findField magnetReadWithMPartsFields "mparts" =
      some (optF "mparts" (FType.listOf "MPartRead") DVal.emptyList) ∧
    fieldNames magnetReadWithMSiteFields =
      fieldNames magnetReadFields ++ ["msites"] ∧
    findField magnetReadWithMSiteFields "msites" =
      some (optF "msites" (FType.listOf "MSiteRead") DVal.emptyList) ∧
    fieldNames msiteReadWithMagnetsFields =
      fieldNames msiteReadFields ++ ["magnets"] ∧
    findField msiteReadWithMagnetsFields "magnets" =
      some (optF "magnets" (FType.listOf "MagnetRead") DVal.emptyList) ∧
    ∀ db mid r, expandMagnetWithMParts db mid = some r →
      ∀ pr, pr ∈ r.mparts ↔
        ∃ p, p ∈ db.mparts ∧ (mid, p.1) ∈ db.mpartMagnetLinks ∧
          pr = mpartReadOf p.1 p.2 := by
  refine ⟨by decide, by decide, by decide, by decide, by decide, by decide, ?_⟩
  intro db mid r h pr
  rw [expandMagnetWithMParts, Option.map_eq_some'] at h
  obtain ⟨a, -, hr⟩ := h
  subst hr
  show pr ∈ linkedMPartReads db mid ↔ _
  simp only [linkedMPartReads, List.mem_map, List.mem_filter, decide_eq_true_eq]
  constructor
  · rintro ⟨p, ⟨hp, hl⟩, rfl⟩
    exact ⟨p, hp, hl, rfl⟩
  · rintro ⟨p, hp, hl, rfl⟩
    exact ⟨p, ⟨hp, hl⟩, rfl⟩

/-- C7, witness: in `c7db`, the read value of the linked part is in the
expansion of magnet 1 exactly because its link row exists. -/
theorem C7_expanded_read_shapes_witness :
    c7pr ∈ c7view.mparts ↔
      ∃ p, p ∈ c7db.mparts ∧ (1, p.1) ∈ c7db.mpartMagnetLinks ∧
        c7pr = mpartReadOf p.1 p.2 := by
  obtain ⟨-, -, -, -, -, -, h⟩ := C7_expanded_read_shapes
  exact h c7db 1 c7view (by decide) c7pr

/-- C9: `MPartUpdate.material_id` is declared `Optional[int] = None`
(optional, defaulting to null, no FK marker on the view), and under the
full-replace update an omitted `material_id` resets the stored reference
of the part to null. -/
theorem C9_mpart_update_material_reset :
    findField mpartUpdateFields "material_id" =
      some (optF "material_id" (FType.opt FType.int) DVal.none_) ∧
    ∀ db pid u db2, u.material_id = none → updateMPart db pid u = some db2 →
      pid ∈ mpartIds db → mpartMaterialOf db2 pid = some none := by
  refine ⟨by decide, ?_⟩
  intro db pid u db2 hnone hupd hmem
  simp only [updateMPart, hnone, if_pos hmem] at hupd
  replace hupd := Option.some.inj hupd
  subst hupd
  dsimp only [mpartMaterialOf]
  rw [find_replace]
  obtain ⟨r, hr⟩ := find_fst_mem pid db.mparts hmem
  rw [hr]
  rfl

/-- C9, witness: part 1 of `c9db` references Material 7; applying the
update `c9u`, whose `material_id` is omitted, resets the stored
reference to null. -/
theorem C9_mpart_update_material_reset_witness :
    mpartMaterialOf c9db2 1 = some none := by
  obtain ⟨-, h⟩ := C9_mpart_update_material_reset
  exact h c9db 1 c9u c9db2 rfl (by decide) (by decide)
